import Mathlib

/-! Shallow embedding of the regime-gated strategy arbitration and position
lifecycle engine of the mch-bot-2 repository, together with proofs of the
frozen claims about it.

Conventions of the embedding:
* Python floats are modelled as rationals (`ℚ`); Python `int` as `ℤ`/`ℕ`.
* Mutable objects become explicit state records threaded through functions.
* Calendar dates are modelled as integer day indices with day 0 a Monday,
  so `weekday d = d.emod 7` (0 = Monday, ..., 4 = Friday) matches Python's
  `date.weekday()`; the month/day question asked by the event-risk check is
  abstracted as a boolean field of the clock input.
* Human-readable reason strings become inductive reason codes carrying the
  same data that the source interpolates into the string.
-/

namespace MCH

/-- Market regimes, from `momentum_bot/core/constants.py` (`MarketRegime`). -/
inductive MarketRegime
  | trending
  | ranging
  | volatile
  | choppy
  | unknown
  deriving DecidableEq

/-- The fields of the market-data dict read by `RegimeClassifier.classify`
and `get_regime_confidence` (`momentum_bot/signals/regime_classifier.py`). -/
structure MarketData where
  adx : ℚ
  vix : ℚ
  atr_percentile : ℚ
  di_plus : ℚ
  di_minus : ℚ
  deriving DecidableEq

/-- Regime thresholds held by `RegimeClassifier.__init__`. -/
structure RegimeConfig where
  adx_trending : ℚ
  adx_ranging : ℚ
  vix_volatile : ℚ
  atr_percentile_high : ℚ
  deriving DecidableEq

/-- Embeds `RegimeClassifier.classify` (`momentum_bot/signals/regime_classifier.py`,
lines 47-99): priority VOLATILE, then TRENDING (with the nested
directional-difference test), then RANGING, else CHOPPY. -/
def classify (cfg : RegimeConfig) (md : MarketData) : MarketRegime :=
  let directional_diff := |md.di_plus - md.di_minus|
  if md.vix > cfg.vix_volatile ∨ md.atr_percentile > cfg.atr_percentile_high then
    .volatile
  else if md.adx > cfg.adx_trending ∧ md.vix < cfg.vix_volatile ∧ directional_diff > 10 then
    .trending
  else if md.adx < cfg.adx_ranging ∧ md.vix < cfg.vix_volatile ∧ directional_diff < 5 then
    .ranging
  else
    .choppy

/-- Mutable state of `MasterPortfolioController`: `current_regime` starts as
`None`, `regime_stability_count` counts consecutive classifications of the
same regime. -/
structure ControllerState where
  current_regime : Option MarketRegime
  regime_stability_count : ℕ
  deriving DecidableEq

/-- The decision dict returned by
`MasterPortfolioController.determine_active_strategy`. -/
structure Decision where
  bot_2_iron_condor : Bool
  bot_3_momentum : Bool
  regime : MarketRegime
  stability : ℕ
  deriving DecidableEq

/-- Embeds `MasterPortfolioController.determine_active_strategy`
(`momentum_bot/portfolio/master_controller.py`, lines 52-116): classify,
update the stability counter (increment on same regime, reset to 1 on
change), then the decision table: TRENDING → momentum bot only,
RANGING/VOLATILE → iron-condor bot only, otherwise neither. -/
def determine_active_strategy (cfg : RegimeConfig) (st : ControllerState)
    (md : MarketData) : Decision × ControllerState :=
  let regime := classify cfg md
  let count : ℕ :=
    if some regime = st.current_regime then st.regime_stability_count + 1 else 1
  let decision : Decision :=
    if regime = .trending then
      { bot_2_iron_condor := false, bot_3_momentum := true,
        regime := regime, stability := count }
    else if regime = .ranging ∨ regime = .volatile then
      { bot_2_iron_condor := true, bot_3_momentum := false,
        regime := regime, stability := count }
    else
      { bot_2_iron_condor := false, bot_3_momentum := false,
        regime := regime, stability := count }
  (decision, { current_regime := some regime, regime_stability_count := count })

/-- Reason codes for the `(can_trade, reason)` pairs returned by
`should_bot_2_trade` / `should_bot_3_trade`. -/
inductive CanTradeReason
  | activeStable (stability : ℕ)
  | waitingForStability
  | botDisabled
  deriving DecidableEq

/-- Embeds `MasterPortfolioController.should_bot_3_trade`
(`master_controller.py`, lines 135-154): run `determine_active_strategy`,
then require the momentum flag and stability ≥ 2. -/
def should_bot_3_trade (cfg : RegimeConfig) (st : ControllerState)
    (md : MarketData) : (Bool × CanTradeReason) × ControllerState :=
  let r := determine_active_strategy cfg st md
  let decision := r.1
  let st1 := r.2
  if decision.bot_3_momentum then
    if decision.stability ≥ 2 then
      ((true, .activeStable decision.stability), st1)
    else
      ((false, .waitingForStability), st1)
  else
    ((false, .botDisabled), st1)

/-- Embeds `MasterPortfolioController.should_bot_2_trade`
(`master_controller.py`, lines 156-175): same shape for the iron-condor
flag. -/
def should_bot_2_trade (cfg : RegimeConfig) (st : ControllerState)
    (md : MarketData) : (Bool × CanTradeReason) × ControllerState :=
  let r := determine_active_strategy cfg st md
  let decision := r.1
  let st1 := r.2
  if decision.bot_2_iron_condor then
    if decision.stability ≥ 2 then
      ((true, .activeStable decision.stability), st1)
    else
      ((false, .waitingForStability), st1)
  else
    ((false, .botDisabled), st1)

/-! Section: iron condor builder and validator (`mch_bot/strategy/iron_condor.py`) -/

/-- Option type of a leg (the source uses the strings CALL / PUT). -/
inductive OptType
  | call
  | put
  deriving DecidableEq

/-- Side of a leg (the source uses the strings SELL / BUY). -/
inductive Side
  | sell
  | buy
  deriving DecidableEq

/-- Embeds `Leg` dataclass (`iron_condor.py`, lines 22-28). -/
structure Leg where
  strike : ℚ
  option_type : OptType
  side : Side
  qty : ℤ
  price : ℚ
  deriving DecidableEq

/-- Embeds `IronCondor` dataclass: just a list of legs. -/
structure IronCondor where
  legs : List Leg
  deriving DecidableEq

/-- Embeds `IronCondor.net_credit` (`iron_condor.py`, lines 35-41): fold starting
at 0, adding `price` for SELL legs and `-price` for BUY legs. -/
def net_credit (ic : IronCondor) : ℚ :=
  ic.legs.foldl (fun credit leg =>
    credit + (if leg.side = .buy then -leg.price else leg.price)) 0

/-- Embeds `ICParams` dataclass. -/
structure ICParams where
  target_delta : ℚ
  wing_width_points : ℚ
  min_credit_per_ic : ℚ
  deriving DecidableEq

/-- Embeds `ICConstraints` dataclass (defaults 200/500/true/75 in the source). -/
structure ICConstraints where
  min_otm_distance : ℚ
  max_otm_distance : ℚ
  require_equal_wings : Bool
  required_lot_size : Option ℤ
  deriving DecidableEq

/-- Python's banker rounding `round(q)`: nearest integer, ties to even.
Used by `pick_strikes_by_delta` and the strike selection of the position
manager via `round(x / step) * step`. -/
def pyRound (q : ℚ) : ℤ :=
  let f := ⌊q⌋
  let r := q - f
  if r < 1/2 then f
  else if r > 1/2 then f + 1
  else if f % 2 = 0 then f else f + 1

/-- Embeds `pick_strikes_by_delta` (`iron_condor.py`, lines 44-53): naive
delta-to-distance mapping, strikes rounded to the nearest step. -/
def pick_strikes_by_delta (spot step target_delta : ℚ) :
    ℚ × ℚ :=
  let distance := if target_delta ≤ 15/100 then spot * (2/100) else spot * (15/1000)
  let call_strike := (pyRound ((spot + distance) / step) : ℚ) * step
  let put_strike := (pyRound ((spot - distance) / step) : ℚ) * step
  (put_strike, call_strike)

/-- The local `round_to_down` of `select_balanced_strikes_by_distance`:
Python `int(x // step) * step`, i.e. floor of the quotient times the step. -/
def round_to_down (x step : ℚ) : ℚ :=
  (⌊x / step⌋ : ℚ) * step

/-- The local `round_to_up` of `select_balanced_strikes_by_distance`:
Python `int((x + step - 1) // step) * step`.  Note this is the integer
ceiling idiom applied verbatim to floats. -/
def round_to_up (x step : ℚ) : ℚ :=
  (⌊(x + step - 1) / step⌋ : ℚ) * step

/-- Embeds `select_balanced_strikes_by_distance` (`iron_condor.py`, lines 56-78),
returning `(short_put, long_put, short_call, long_call)` after the two
defaulting guards on non-positive inputs. -/
def select_balanced_strikes_by_distance (spot step target_distance wing_width : ℚ) :
    ℚ × ℚ × ℚ × ℚ :=
  let td := if target_distance ≤ 0 then step else target_distance
  let ww := if wing_width ≤ 0 then step * 2 else wing_width
  let short_put := round_to_down (spot - td) step
  let short_call := round_to_up (spot + td) step
  let long_put := short_put - ww
  let long_call := short_call + ww
  (short_put, long_put, short_call, long_call)

/-- Reason codes for `validate_balanced_ic`, one per `reasons.append` site,
carrying the data interpolated into the source's message strings. -/
inductive ICReason
  | lotSizeMismatch (lot required : ℤ)
  | notFourLegs
  | missingLegs
  | strikeOrder (sc spot sp : ℚ)
  | wingsUnequal (width_put width_call : ℚ)
  | unbalancedDistance (dist_put dist_call : ℚ)
  | putDistanceOutside (dist lo hi : ℚ)
  | callDistanceOutside (dist lo hi : ℚ)
  deriving DecidableEq

/-- The strike extracted by the source's
`next((l.strike for l in ic.legs if l.option_type == T and l.side == S), None)`. -/
def find_leg_strike (ic : IronCondor) (t : OptType) (s : Side) : Option ℚ :=
  (ic.legs.find? (fun l => l.option_type = t ∧ l.side = s)).map Leg.strike

/-- Embeds `validate_balanced_ic` (`iron_condor.py`, lines 81-125): accumulates a
lot-size reason, returns early on a wrong leg count or a missing role, and
otherwise accumulates strike-order, wing-width, distance-balance and
OTM-bound reasons, succeeding iff the reason list is empty. -/
def validate_balanced_ic (spot : ℚ) (ic : IronCondor) (c : ICConstraints)
    (lot_size : ℤ) : Bool × List ICReason :=
  let reasons0 : List ICReason :=
    match c.required_lot_size with
    | some req => if lot_size ≠ req then [.lotSizeMismatch lot_size req] else []
    | none => []
  if ic.legs = [] ∨ ic.legs.length ≠ 4 then
    (false, reasons0 ++ [.notFourLegs])
  else
    match find_leg_strike ic .put .sell, find_leg_strike ic .call .sell,
          find_leg_strike ic .put .buy, find_leg_strike ic .call .buy with
    | some sp, some sc, some lp, some lc =>
      let r1 : List ICReason :=
        if ¬(sc > spot ∧ spot > sp) then [.strikeOrder sc spot sp] else []
      let width_put := sp - lp
      let width_call := lc - sc
      let r2 : List ICReason :=
        if c.require_equal_wings ∧ |width_put - width_call| > 1/1000000 then
          [.wingsUnequal width_put width_call]
        else []
      let dist_put := spot - sp
      let dist_call := sc - spot
      let r3 : List ICReason :=
        if |dist_put - dist_call| > max 1 ((2/10) * min dist_put dist_call) then
          [.unbalancedDistance dist_put dist_call]
        else []
      let r4 : List ICReason :=
        if ¬(c.min_otm_distance ≤ dist_put ∧ dist_put ≤ c.max_otm_distance) then
          [.putDistanceOutside dist_put c.min_otm_distance c.max_otm_distance]
        else []
      let r5 : List ICReason :=
        if ¬(c.min_otm_distance ≤ dist_call ∧ dist_call ≤ c.max_otm_distance) then
          [.callDistanceOutside dist_call c.min_otm_distance c.max_otm_distance]
        else []
      let reasons := reasons0 ++ r1 ++ r2 ++ r3 ++ r4 ++ r5
      (reasons.length = 0, reasons)
    | _, _, _, _ =>
      (false, reasons0 ++ [.missingLegs])

/-- The pricing callback `price_fn(spot, strike, expiry_t, r, iv, side)`
passed into the builders, modelled as an opaque function argument. -/
def PriceFn : Type := ℚ → ℚ → ℚ → ℚ → ℚ → OptType → ℚ

/-- Embeds `build_iron_condor` (`iron_condor.py`, lines 128-159): delta-picked
strikes, four priced legs (SELL shorts, BUY wings), rejected to an
empty-leg condor when `net_credit * lot_size < min_credit_per_ic`. -/
def build_iron_condor (spot : ℚ) (lot_size : ℤ) (step : ℚ) (params : ICParams)
    (price_fn : PriceFn) (expiry_t r iv : ℚ) : IronCondor :=
  let ps_pc := pick_strikes_by_delta spot step params.target_delta
  let put_short := ps_pc.1
  let call_short := ps_pc.2
  let put_long := put_short - params.wing_width_points
  let call_long := call_short + params.wing_width_points
  let ps := price_fn spot put_short expiry_t r iv .put
  let pl := price_fn spot put_long expiry_t r iv .put
  let cs := price_fn spot call_short expiry_t r iv .call
  let cl := price_fn spot call_long expiry_t r iv .call
  let ic : IronCondor := ⟨[
    ⟨put_short, .put, .sell, lot_size, ps⟩,
    ⟨call_short, .call, .sell, lot_size, cs⟩,
    ⟨put_long, .put, .buy, lot_size, pl⟩,
    ⟨call_long, .call, .buy, lot_size, cl⟩]⟩
  if net_credit ic * lot_size < params.min_credit_per_ic then ⟨[]⟩ else ic

/-- Embeds `build_iron_condor_balanced` (`iron_condor.py`, lines 162-189): balanced
strikes by distance, four priced legs, same minimum-credit rejection. -/
def build_iron_condor_balanced (spot : ℚ) (lot_size : ℤ) (step : ℚ)
    (params : ICParams) (target_distance : ℚ) (price_fn : PriceFn)
    (expiry_t r iv : ℚ) : IronCondor :=
  let strikes := select_balanced_strikes_by_distance spot step target_distance
      params.wing_width_points
  let sp := strikes.1
  let lp := strikes.2.1
  let sc := strikes.2.2.1
  let lc := strikes.2.2.2
  let ps := price_fn spot sp expiry_t r iv .put
  let pl := price_fn spot lp expiry_t r iv .put
  let cs := price_fn spot sc expiry_t r iv .call
  let cl := price_fn spot lc expiry_t r iv .call
  let ic : IronCondor := ⟨[
    ⟨sp, .put, .sell, lot_size, ps⟩,
    ⟨sc, .call, .sell, lot_size, cs⟩,
    ⟨lp, .put, .buy, lot_size, pl⟩,
    ⟨lc, .call, .buy, lot_size, cl⟩]⟩
  if net_credit ic * lot_size < params.min_credit_per_ic then ⟨[]⟩ else ic

/-! Section: position lifecycle, risk manager, exit handler
(`momentum_bot/strategy/position_manager.py`, `risk_manager.py`,
`exit_handler.py`) -/

/-- Embeds `PositionStatus` enum (`momentum_bot/core/constants.py`). -/
inductive PositionStatus
  | pending
  | active
  | partialExit
  | closed
  | failed
  deriving DecidableEq

/-- Python `int(q)` on a float: truncation toward zero. -/
def pyInt (q : ℚ) : ℤ :=
  if q < 0 then ⌈q⌉ else ⌊q⌋

/-- Python `round(q, 2)`: banker rounding at the second decimal. -/
def pyRound2 (q : ℚ) : ℚ :=
  (pyRound (q * 100) : ℚ) / 100

/-- The position dict built by `PositionManager.enter_position`
(`position_manager.py`, lines 106-135).  `entry_time` and `expiry_date`
are day indices; the dynamically-added `exit_premium` key is an `Option`.
The source deliberately has no rolling fields. -/
structure Position where
  position_id : ℕ
  strike : ℤ
  expiry_date : ℤ
  dte : ℤ
  option_type : OptType
  quantity : ℤ
  lots : ℤ
  entry_premium : ℚ
  entry_spot : ℚ
  entry_time : ℤ
  entry_iv : ℚ
  confidence : ℚ
  stop_loss : ℚ
  status : PositionStatus
  partial_exit_done : Bool
  partial_exit_quantity : ℤ
  remaining_quantity : ℤ
  realized_pnl : ℚ
  unrealized_pnl : ℚ
  exit_premium : Option ℚ
  deriving DecidableEq

/-- The configuration fields read by `RiskManager.__init__`. -/
structure RiskConfig where
  capital : ℚ
  max_capital_per_trade_base : ℚ
  max_capital_per_trade_max : ℚ
  max_loss_per_trade : ℚ
  max_daily_loss : ℚ
  max_weekly_loss : ℚ
  max_positions : ℕ
  risk_weekend_max_capital : ℚ
  risk_event_max_capital : ℚ
  deriving DecidableEq

/-- The clock sample taken by `datetime.now()`: a day index (day 0 is a
Monday, so `weekday = day_index.emod 7` as in Python) plus the answer to
the calendar question asked by `RiskManager._is_major_event_pending`
(whether the date is February 1st, the hard-coded budget day). -/
structure Today where
  day_index : ℤ
  is_budget_day : Bool
  deriving DecidableEq

/-- Python `date.weekday()` under the Monday-epoch encoding. -/
def weekday (d : ℤ) : ℤ := d.emod 7

/-- Embeds `RiskManager._get_week_start`: the Monday of the week of `d`. -/
def get_week_start (d : ℤ) : ℤ := d - weekday d

/-- Mutable state of `RiskManager`: loss counters, their period anchors,
and the active-position list. -/
structure RMState where
  daily_loss : ℚ
  weekly_loss : ℚ
  current_day : ℤ
  week_start : ℤ
  active_positions : List Position
  deriving DecidableEq

/-- Embeds `RiskManager._update_loss_counters` (`risk_manager.py`, lines 278-297):
lazily reset the daily counter when the stored day differs from today, and
the weekly counter when the stored Monday differs from this week's. -/
def update_loss_counters (today : ℤ) (rm : RMState) : RMState :=
  let rm1 :=
    if today ≠ rm.current_day then
      { rm with daily_loss := 0, current_day := today }
    else rm
  let ws := get_week_start today
  if ws ≠ rm1.week_start then
    { rm1 with weekly_loss := 0, week_start := ws }
  else rm1

/-- Embeds `RiskManager.calculate_position_size` (`risk_manager.py`, lines 69-123):
confidence-bracket allocation, multiplier, Friday weekend derating, event
derating, times capital. -/
def calculate_position_size (cfg : RiskConfig) (today : Today)
    (confidence : ℚ) (multiplier : ℚ) : ℚ :=
  let allocation :=
    if confidence ≥ 85 then cfg.max_capital_per_trade_max
    else if confidence ≥ 70 then 40/100
    else cfg.max_capital_per_trade_base
  let allocation := allocation * multiplier
  let allocation :=
    if weekday today.day_index = 4 then min allocation cfg.risk_weekend_max_capital
    else allocation
  let allocation :=
    if today.is_budget_day then min allocation cfg.risk_event_max_capital
    else allocation
  cfg.capital * allocation

/-- Embeds `RiskManager._calculate_position_risk`: |quantity × (entry − stop)|. -/
def calculate_position_risk (p : Position) : ℚ :=
  |(p.quantity : ℚ) * (p.entry_premium - p.stop_loss)|

/-- Embeds `RiskManager._calculate_total_exposure`: Σ quantity × entry premium. -/
def calculate_total_exposure (rm : RMState) : ℚ :=
  rm.active_positions.foldl (fun t p => t + (p.quantity : ℚ) * p.entry_premium) 0

/-- Reason codes for the strings returned by `RiskManager.validate_entry`,
one per `return` site, carrying the interpolated data. -/
inductive EntryReason
  | dailyLossLimit (loss : ℚ)
  | weeklyLossLimit (loss : ℚ)
  | maxPositionsReached (active_count max_positions : ℕ)
  | positionRiskTooHigh (risk max_loss : ℚ)
  | insufficientCapital (need available : ℚ)
  | riskChecksPassed
  deriving DecidableEq

/-- Embeds `RiskManager.validate_entry` (`risk_manager.py`, lines 125-166): lazy
counter reset, then in order the daily-loss, weekly-loss, position-count,
per-trade-risk and capital checks.  The lazy reset mutates the manager, so
the updated state is returned alongside the verdict. -/
def validate_entry (cfg : RiskConfig) (today : Today) (rm : RMState)
    (p : Position) : (Bool × EntryReason) × RMState :=
  let rm1 := update_loss_counters today.day_index rm
  let verdict : Bool × EntryReason :=
    if rm1.daily_loss ≥ cfg.max_daily_loss then
      (false, .dailyLossLimit rm1.daily_loss)
    else if rm1.weekly_loss ≥ cfg.max_weekly_loss then
      (false, .weeklyLossLimit rm1.weekly_loss)
    else if rm1.active_positions.length ≥ cfg.max_positions then
      (false, .maxPositionsReached rm1.active_positions.length cfg.max_positions)
    else if calculate_position_risk p > cfg.max_loss_per_trade then
      (false, .positionRiskTooHigh (calculate_position_risk p) cfg.max_loss_per_trade)
    else if calculate_total_exposure rm1 + (p.quantity : ℚ) * p.entry_premium > cfg.capital then
      (false, .insufficientCapital ((p.quantity : ℚ) * p.entry_premium)
        (cfg.capital - calculate_total_exposure rm1))
    else (true, .riskChecksPassed)
  (verdict, rm1)

/-- Embeds `RiskManager.record_position_entry`: append to the active list. -/
def record_position_entry (rm : RMState) (p : Position) : RMState :=
  { rm with active_positions := rm.active_positions ++ [p] }

/-- Embeds `RiskManager.record_position_exit` (`risk_manager.py`, lines 180-202):
drop the position from the active list; add |pnl| to both loss counters
exactly when the realized pnl is negative. -/
def record_position_exit (rm : RMState) (p : Position) (pnl : ℚ) : RMState :=
  let rm1 := { rm with active_positions := rm.active_positions.filter (fun q => q ≠ p) }
  if pnl < 0 then
    { rm1 with daily_loss := rm1.daily_loss + |pnl|,
               weekly_loss := rm1.weekly_loss + |pnl| }
  else rm1

/-- The configuration fields read by `PositionManager`. -/
structure PMConfig where
  instrument_lot_size : ℤ
  entry_strike_distance_min : ℤ
  entry_strike_distance_max : ℤ
  entry_dte_min : ℤ
  entry_dte_max : ℤ
  exit_stop_loss_pct : ℚ
  deriving DecidableEq

/-- Mutable state of `PositionManager`: the position map (keyed here by the
counter part of the generated id) and the id counter. -/
structure PMState where
  positions : List (ℕ × Position)
  position_counter : ℕ
  deriving DecidableEq

/-- The signal-data dict consumed by `enter_position`. -/
structure SignalData where
  direction : OptType
  spot : ℚ
  iv_percentile : ℚ
  deriving DecidableEq

/-- Embeds `PositionManager._select_strike` (`position_manager.py`, lines 286-325):
midpoint OTM distance (integer floor division), added above spot for a
CALL and below for a PUT, banker-rounded to the NIFTY 50-point step. -/
def select_strike (spot : ℚ) (direction : OptType) (min_otm max_otm : ℤ) : ℤ :=
  let strike_step : ℤ := 50
  let target_otm := Int.fdiv (min_otm + max_otm) 2
  let target_strike :=
    if direction = .call then spot + (target_otm : ℚ) else spot - (target_otm : ℚ)
  pyRound (target_strike / (strike_step : ℚ)) * strike_step

/-- Embeds `PositionManager._find_expiry` (`position_manager.py`, lines 327-370):
next Thursday (skipping today if it is Thursday), pushed a week later when
the resulting DTE is below the minimum.  Returns `(expiry_day, dte)`. -/
def find_expiry (today : ℤ) (target_dte_min : ℤ) : ℤ × ℤ :=
  let days_until_thursday := (3 - weekday today).emod 7
  let days_until_thursday :=
    if days_until_thursday = 0 then 7 else days_until_thursday
  if days_until_thursday < target_dte_min then
    (today + days_until_thursday + 7, days_until_thursday + 7)
  else
    (today + days_until_thursday, days_until_thursday)

/-- Embeds `PositionManager._estimate_premium` (`position_manager.py`, lines
372-407): OTM-distance base, time-decay factor, IV factor, rounded to two
decimals. -/
def estimate_premium (spot : ℚ) (strike : ℤ) (dte : ℤ) (iv_percentile : ℚ) : ℚ :=
  let otm_distance := |(strike : ℚ) - spot|
  let base_premium := max 50 (500 - otm_distance * (3/2))
  let base_premium := base_premium * ((dte : ℚ) / 14)
  let base_premium := base_premium * (1 + (iv_percentile - 50) / 100)
  pyRound2 base_premium

/-- Embeds `PositionManager.enter_position` (`position_manager.py`, lines 46-157):
size the trade, pick strike/expiry/premium, build the position dict with
fresh tracking fields, then gate it through `RiskManager.validate_entry`;
on rejection return `none` having recorded nothing (only the id counter
and the lazily reset loss counters moved), on success store the position
and register it with the risk manager. -/
def enter_position (pmcfg : PMConfig) (rcfg : RiskConfig) (today : Today)
    (pm : PMState) (rm : RMState) (signal_data : SignalData)
    (confidence_score : ℚ) : Option Position × PMState × RMState :=
  let position_value := calculate_position_size rcfg today confidence_score 1
  let strike := select_strike signal_data.spot signal_data.direction
      pmcfg.entry_strike_distance_min pmcfg.entry_strike_distance_max
  let ed := find_expiry today.day_index pmcfg.entry_dte_min
  let premium := estimate_premium signal_data.spot strike ed.2
      signal_data.iv_percentile
  let lot_size := pmcfg.instrument_lot_size
  let lots := max 1 (pyInt (position_value / (premium * (lot_size : ℚ))))
  let quantity := lots * lot_size
  let stop_loss := premium * (1 - pmcfg.exit_stop_loss_pct)
  let counter1 := pm.position_counter + 1
  let position : Position :=
    { position_id := counter1
      strike := strike
      expiry_date := ed.1
      dte := ed.2
      option_type := signal_data.direction
      quantity := quantity
      lots := lots
      entry_premium := premium
      entry_spot := signal_data.spot
      entry_time := today.day_index
      entry_iv := signal_data.iv_percentile
      confidence := confidence_score
      stop_loss := stop_loss
      status := .pending
      partial_exit_done := false
      partial_exit_quantity := 0
      remaining_quantity := quantity
      realized_pnl := 0
      unrealized_pnl := 0
      exit_premium := none }
  let vr := validate_entry rcfg today rm position
  if vr.1.1 = false then
    (none, { pm with position_counter := counter1 }, vr.2)
  else
    (some position,
     { positions := pm.positions ++ [(counter1, position)],
       position_counter := counter1 },
     record_position_entry vr.2 position)

/-- The action strings of exit-signal dicts. -/
inductive ActionKind
  | EXIT_ALL
  | PARTIAL_EXIT
  | HOLD
  deriving DecidableEq

/-- The exit-signal dict consumed by `PositionManager.exit_position`
(`percentage` defaults to 0.50 in the source's `.get`). -/
structure PMExitSignal where
  action : ActionKind
  percentage : ℚ
  deriving DecidableEq

/-- Outcome of `PositionManager.exit_position`, one constructor per
`return` site. -/
inductive PMExitResult
  | quantityTooSmall
  | partialDone (exit_quantity : ℤ) (remaining_quantity : ℤ) (pnl : ℚ)
  | fullDone (exit_quantity : ℤ) (pnl : ℚ)
  deriving DecidableEq

/-- Embeds `PositionManager.exit_position` (`position_manager.py`, lines 159-262),
restricted to its effect on the position record.  PARTIAL_EXIT: exit
`int(remaining × pct)` floored to a lot multiple (a zero quantity is
rejected untouched), book the pnl, and ratchet the stop to breakeven.
Any other action is the EXIT_ALL branch: close fully, zero the remaining
quantity and mark CLOSED.  (At manager level a full exit additionally
calls `RiskManager.record_position_exit` — modelled separately — and
deletes the map entry.) -/
def exit_position (lot_size : ℤ) (p : Position) (exit_signal : PMExitSignal)
    (current_premium : ℚ) : PMExitResult × Position :=
  if exit_signal.action = .PARTIAL_EXIT then
    let exit_quantity0 := pyInt ((p.remaining_quantity : ℚ) * exit_signal.percentage)
    let exit_quantity := (Int.fdiv exit_quantity0 lot_size) * lot_size
    if exit_quantity = 0 then
      (.quantityTooSmall, p)
    else
      let pnl := (current_premium - p.entry_premium) * (exit_quantity : ℚ)
      let p1 : Position :=
        { p with partial_exit_done := true
                 partial_exit_quantity := p.partial_exit_quantity + exit_quantity
                 remaining_quantity := p.remaining_quantity - exit_quantity
                 realized_pnl := p.realized_pnl + pnl
                 stop_loss := p.entry_premium }
      (.partialDone exit_quantity p1.remaining_quantity pnl, p1)
  else
    let exit_quantity := p.remaining_quantity
    let pnl := (current_premium - p.entry_premium) * (exit_quantity : ℚ)
    let p1 : Position :=
      { p with status := .closed
               exit_premium := some current_premium
               realized_pnl := p.realized_pnl + pnl
               remaining_quantity := 0 }
    (.fullDone exit_quantity p1.realized_pnl, p1)

/-- The configuration fields cached by `ExitHandler.__init__`
(`exit_handler.py`, lines 29-54); `profit_target` is the configured
percentage already divided by 100. -/
inductive TrailingMethod
  | ema_20
  | atr_1_5
  | fallback
  deriving DecidableEq

/-- Exit-handler parameters. -/
structure ExitConfig where
  profit_target : ℚ
  partial_exit_pct : ℚ
  stop_loss_pct : ℚ
  time_exit_dte : ℤ
  iv_crush_threshold : ℚ
  trailing_method : TrailingMethod
  wednesday_exit : Bool
  deriving DecidableEq

/-- The `datetime.now()` sample used by the exit handler: a day index plus
the minute of day (for the 2 PM cutoff). -/
structure Clock where
  date : ℤ
  minute_of_day : ℤ
  deriving DecidableEq

/-- The current-market-data dict consumed by `ExitHandler.check_exits`. -/
structure CurrentData where
  premium : ℚ
  spot : ℚ
  ema_20 : ℚ
  atr : ℚ
  iv_percentile : ℚ
  di_plus : ℚ
  di_minus : ℚ
  deriving DecidableEq

/-- Reason codes for the strings produced by `check_exits`, one per return
site. -/
inductive ExitReason
  | timeExit (dte threshold : ℤ)
  | wednesdayRule
  | ivCrush (drop : ℚ)
  | stopLossHit (loss_pct : ℚ)
  | momentumReversalLoss
  | profitTarget (profit_pct : ℚ)
  | trailingStopHit (stop : ℚ)
  | allConditionsGreen
  deriving DecidableEq

/-- The exit-signal dict returned by `check_exits`. -/
structure ExitDecision where
  action : ActionKind
  reason : ExitReason
  percentage : Option ℚ
  deriving DecidableEq

/-- Embeds `ExitHandler._days_to_expiry`: clamped day difference. -/
def days_to_expiry (expiry_date : ℤ) (now : Clock) : ℤ :=
  max 0 (expiry_date - now.date)

/-- Embeds `ExitHandler._is_wednesday_after_2pm`. -/
def is_wednesday_after_2pm (now : Clock) : Prop :=
  weekday now.date = 2 ∧ now.minute_of_day ≥ 14 * 60

instance (now : Clock) : Decidable (is_wednesday_after_2pm now) := by
  unfold is_wednesday_after_2pm
  infer_instance

/-- Embeds `ExitHandler._calculate_iv_drop`: entry-to-now IV percentile drop,
clamped at zero. -/
def calculate_iv_drop (p : Position) (cur : CurrentData) : ℚ :=
  max 0 ((p.entry_iv - cur.iv_percentile) / 100)

/-- Embeds `ExitHandler._calculate_loss_pct`: relative premium loss, 0 when not
losing. -/
def calculate_loss_pct (p : Position) (cur : CurrentData) : ℚ :=
  if cur.premium ≥ p.entry_premium then 0
  else (p.entry_premium - cur.premium) / p.entry_premium

/-- Embeds `ExitHandler._calculate_profit_pct`: relative premium gain, 0 when not
profiting. -/
def calculate_profit_pct (p : Position) (cur : CurrentData) : ℚ :=
  if cur.premium ≤ p.entry_premium then 0
  else (cur.premium - p.entry_premium) / p.entry_premium

/-- Embeds `ExitHandler._momentum_reversed`: adverse EMA side plus adverse DI
dominance for the option's direction. -/
def momentum_reversed (p : Position) (cur : CurrentData) : Prop :=
  match p.option_type with
  | .call => cur.spot < cur.ema_20 ∧ cur.di_minus > cur.di_plus
  | .put => cur.spot > cur.ema_20 ∧ cur.di_plus > cur.di_minus

instance (p : Position) (cur : CurrentData) : Decidable (momentum_reversed p cur) := by
  unfold momentum_reversed
  cases p.option_type <;> infer_instance

/-- Embeds `ExitHandler._calculate_trailing_stop` (`exit_handler.py`, lines
291-338): EMA method scales the entry premium by half the spot move; ATR
method offsets the current premium by a rough delta of a 1.5-ATR spot
drop; both floored at the entry premium; unknown methods fall back to the
entry premium. -/
def calculate_trailing_stop (p : Position) (cur : CurrentData)
    (method : TrailingMethod) : ℚ :=
  match method with
  | .ema_20 =>
    let spot_move_pct := (cur.spot - p.entry_spot) / p.entry_spot
    let trailing_stop := p.entry_premium * (1 + spot_move_pct * (1/2))
    max trailing_stop p.entry_premium
  | .atr_1_5 =>
    let spot_stop := cur.spot - (3/2) * cur.atr
    let spot_move := cur.spot - spot_stop
    let premium_adjustment := spot_move * (5/100)
    let trailing_stop := cur.premium - premium_adjustment
    max trailing_stop p.entry_premium
  | .fallback => p.entry_premium

/-- Embeds `ExitHandler.check_exits` (`exit_handler.py`, lines 56-153): the
priority ladder — time exit, Wednesday rule, IV crush, stop loss,
momentum reversal, then the two-stage profit take — first hit wins,
otherwise HOLD. -/
def check_exits (cfg : ExitConfig) (now : Clock) (p : Position)
    (cur : CurrentData) : ExitDecision :=
  let dte := days_to_expiry p.expiry_date now
  if dte ≤ cfg.time_exit_dte then
    { action := .EXIT_ALL, reason := .timeExit dte cfg.time_exit_dte, percentage := none }
  else if cfg.wednesday_exit ∧ is_wednesday_after_2pm now ∧ now.date - p.entry_time ≤ 2 then
    { action := .EXIT_ALL, reason := .wednesdayRule, percentage := none }
  else
    let iv_drop := calculate_iv_drop p cur
    if iv_drop > cfg.iv_crush_threshold then
      { action := .EXIT_ALL, reason := .ivCrush iv_drop, percentage := none }
    else
      let loss_pct := calculate_loss_pct p cur
      if loss_pct ≥ cfg.stop_loss_pct then
        { action := .EXIT_ALL, reason := .stopLossHit loss_pct, percentage := none }
      else if loss_pct > 15/100 ∧ momentum_reversed p cur then
        { action := .EXIT_ALL, reason := .momentumReversalLoss, percentage := none }
      else
        let profit_pct := calculate_profit_pct p cur
        if profit_pct ≥ cfg.profit_target then
          if p.partial_exit_done = false then
            { action := .PARTIAL_EXIT, reason := .profitTarget profit_pct,
              percentage := some cfg.partial_exit_pct }
          else
            let trailing_stop := calculate_trailing_stop p cur cfg.trailing_method
            if cur.premium ≤ trailing_stop then
              { action := .EXIT_ALL, reason := .trailingStopHit trailing_stop,
                percentage := none }
            else
              { action := .HOLD, reason := .allConditionsGreen, percentage := none }
        else
          { action := .HOLD, reason := .allConditionsGreen, percentage := none }

/-- A sequence of PARTIAL_EXIT operations applied through `exit_position`:
each element is a pair (percentage, current premium). -/
def apply_partial_exits (lot_size : ℤ) (steps : List (ℚ × ℚ)) (p : Position) :
    Position :=
  steps.foldl (fun q s =>
    (exit_position lot_size q { action := .PARTIAL_EXIT, percentage := s.1 } s.2).2) p

/-- The two kinds of risk-manager calls that touch the loss counters: a
position exit being recorded, and any of the public entry points that
perform the lazy boundary reset (`validate_entry`, `get_risk_status`,
`should_close_all_positions`), tagged with the wall-clock day they run
on. -/
inductive RiskOp
  | recordExit (p : Position) (pnl : ℚ)
  | lazyReset (today : ℤ)
  deriving DecidableEq

/-- Apply one risk-manager call to the risk state. -/
def apply_risk_op (rm : RMState) : RiskOp → RMState
  | .recordExit p pnl => record_position_exit rm p pnl
  | .lazyReset d => update_loss_counters d rm

/-- Apply a sequence of risk-manager calls. -/
def apply_risk_ops (ops : List RiskOp) (rm : RMState) : RMState :=
  ops.foldl apply_risk_op rm

/-! Section: concrete fixtures used by witnesses and counterexamples -/

/-- Regime thresholds matching the documented defaults (ADX 25/20, VIX 20,
ATR percentile 90). -/
def cfgR : RegimeConfig := ⟨25, 20, 20, 90⟩

/-- A snapshot classified TRENDING under `cfgR`. -/
def mdTrend : MarketData := ⟨30, 15, 50, 40, 10⟩

/-- A snapshot classified VOLATILE under `cfgR`. -/
def mdVol : MarketData := ⟨30, 25, 50, 40, 10⟩

/-- Exit-handler parameters at the documented defaults: 75% target, 50%
partial, 30% stop, 4-DTE time exit, 10% IV crush, EMA trailing. -/
def cfgE : ExitConfig := ⟨3/4, 1/2, 3/10, 4, 1/10, .ema_20, true⟩

/-- A Monday-morning clock sample. -/
def nowE : Clock := ⟨0, 600⟩

/-- A position 3 days from expiry bought at premium 100. -/
def posE : Position :=
  ⟨1, 23800, 3, 3, .call, 75, 1, 100, 23500, 0, 50, 80, 70, .active,
   false, 0, 75, 0, 0, none⟩

/-- Market data with the premium at 200: a +100% profit on `posE`. -/
def curE : CurrentData := ⟨200, 23600, 23550, 100, 50, 20, 10⟩

/-- Position-manager configuration: NIFTY lot 75, 250-350 OTM, 10-14 DTE,
30% stop. -/
def pmcfgW : PMConfig := ⟨75, 250, 350, 10, 14, 3/10⟩

/-- Risk limits: 1 lakh capital, 35%/45% allocation, loss caps, 2
positions max. -/
def rcfgW : RiskConfig := ⟨100000, 35/100, 45/100, 50000, 5000, 15000, 2, 3/10, 2/10⟩

/-- A Monday that is not budget day. -/
def todayW : Today := ⟨0, false⟩

/-- A bullish entry signal at spot 23500 with IV percentile 50. -/
def sigW : SignalData := ⟨.call, 23500, 50⟩

/-- Fresh risk state on day 0. -/
def rm0 : RMState := ⟨0, 0, 0, 0, []⟩

/-- Fresh position-manager state. -/
def pm0 : PMState := ⟨[], 0⟩

/-- The position that `enter_position` produces from the fixtures above:
strike 23800, 10 DTE, premium 35.71, 14 lots of 75. -/
def posEnteredW : Position :=
  ⟨1, 23800, 10, 10, .call, 1050, 14, 3571/100, 23500, 0, 50, 80,
   24997/1000, .pending, false, 0, 1050, 0, 0, none⟩

/-- Risk state already holding `max_positions` active positions. -/
def rmFull : RMState := ⟨0, 0, 0, 0, [posEnteredW, posEnteredW]⟩

/-- Risk state carrying accumulated losses mid-week (day 5, week start 0
— a Saturday of the week starting Monday day 0). -/
def rmLoss : RMState := ⟨100, 200, 5, 0, []⟩

/-- A same-day call sequence: a losing exit, a lazy-reset touch, a
profitable exit. -/
def opsW : List RiskOp :=
  [.recordExit posEnteredW (-50), .lazyReset 5, .recordExit posEnteredW 30]

/-- Validation constraints at the source defaults. -/
def icConstraintsW : ICConstraints := ⟨200, 500, true, some 75⟩

/-- A five-leg structure whose first SELL PUT sits above both the spot
used in the counterexample and the SELL CALL. -/
def ic5W : IronCondor :=
  ⟨[⟨120, .put, .sell, 75, 1⟩, ⟨100, .call, .sell, 75, 1⟩,
    ⟨80, .put, .buy, 75, 1⟩, ⟨130, .call, .buy, 75, 1⟩,
    ⟨90, .put, .sell, 75, 1⟩]⟩

/-! Section: theorems for the frozen claims -/

/-- The controller state written by `determine_active_strategy`. -/
lemma determine_active_strategy_state (cfg : RegimeConfig)
    (st : ControllerState) (md : MarketData) :
    (determine_active_strategy cfg st md).2 =
      { current_regime := some (classify cfg md),
        regime_stability_count :=
          if some (classify cfg md) = st.current_regime
          then st.regime_stability_count + 1 else 1 } := by
  unfold determine_active_strategy
  dsimp only

/-- The wrapper `should_bot_2_trade` leaves exactly the state that
`determine_active_strategy` computes. -/
lemma should_bot_2_trade_state (cfg : RegimeConfig)
    (st : ControllerState) (md : MarketData) :
    (should_bot_2_trade cfg st md).2 = (determine_active_strategy cfg st md).2 := by
  unfold should_bot_2_trade
  dsimp only
  split
  · split <;> rfl
  · rfl

/-- The wrapper `should_bot_3_trade` leaves exactly the state that
`determine_active_strategy` computes. -/
lemma should_bot_3_trade_state (cfg : RegimeConfig)
    (st : ControllerState) (md : MarketData) :
    (should_bot_3_trade cfg st md).2 = (determine_active_strategy cfg st md).2 := by
  unfold should_bot_3_trade
  dsimp only
  split
  · split <;> rfl
  · rfl

/-- C1: for every market-data snapshot and every controller state (hence
every sequence of calls), `determine_active_strategy` never returns a
decision enabling both the iron-condor flag and the momentum flag: in
every branch of the decision table at most one strategy is enabled. -/
theorem determine_active_strategy_mutual_exclusion
    (cfg : RegimeConfig) (st : ControllerState) (md : MarketData) :
    ((determine_active_strategy cfg st md).1.bot_2_iron_condor &&
     (determine_active_strategy cfg st md).1.bot_3_momentum) = false := by
  unfold determine_active_strategy
  rcases h : classify cfg md <;> simp [h]

/-- C10: the stability counter counts method invocations, not market bars:
one call to `determine_active_strategy` increments it when the classified
regime matches the stored one (else resets it to 1), and because
`should_bot_2_trade` and `should_bot_3_trade` each invoke
`determine_active_strategy`, two back-to-back can-trade queries against
the same single snapshot move the counter to `old + 2` (resp. to 2 after
a change). -/
theorem stability_counts_invocations
    (cfg : RegimeConfig) (st : ControllerState) (md : MarketData) :
    ((determine_active_strategy cfg st md).2.regime_stability_count =
      if some (classify cfg md) = st.current_regime
      then st.regime_stability_count + 1 else 1) ∧
    ((should_bot_3_trade cfg (should_bot_2_trade cfg st md).2 md).2.regime_stability_count =
      if some (classify cfg md) = st.current_regime
      then st.regime_stability_count + 2 else 2) := by
  constructor
  · rw [determine_active_strategy_state]
  · rw [should_bot_3_trade_state, determine_active_strategy_state,
      should_bot_2_trade_state, determine_active_strategy_state]
    by_cases h : some (classify cfg md) = st.current_regime <;> simp [h]

/-- C3: whenever days-to-expiry is at most the configured `time_exit_dte`,
`check_exits` returns EXIT_ALL with the time-exit reason — the first rung
of the priority ladder — so no lower-priority rule (in particular the
profit-take PARTIAL_EXIT) is ever produced in that situation. -/
theorem check_exits_time_exit_priority
    (cfg : ExitConfig) (now : Clock) (p : Position) (cur : CurrentData)
    (h : days_to_expiry p.expiry_date now ≤ cfg.time_exit_dte) :
    check_exits cfg now p cur =
      { action := .EXIT_ALL,
        reason := .timeExit (days_to_expiry p.expiry_date now) cfg.time_exit_dte,
        percentage := none } := by
  unfold check_exits
  simp [h]

/-- C6: `build_iron_condor_balanced` and `build_iron_condor` each return
either a condor with exactly 4 legs whose net credit times the lot size
meets `min_credit_per_ic`, or a condor with an empty leg list; a four-leg
condor with sub-minimum credit is never returned. -/
theorem build_iron_condor_credit_floor
    (spot : ℚ) (lot_size : ℤ) (step : ℚ) (params : ICParams)
    (target_distance : ℚ) (price_fn : PriceFn) (expiry_t r iv : ℚ) :
    ((build_iron_condor_balanced spot lot_size step params target_distance
        price_fn expiry_t r iv).legs = [] ∨
     ((build_iron_condor_balanced spot lot_size step params target_distance
        price_fn expiry_t r iv).legs.length = 4 ∧
      params.min_credit_per_ic ≤
        net_credit (build_iron_condor_balanced spot lot_size step params
          target_distance price_fn expiry_t r iv) * lot_size)) ∧
    ((build_iron_condor spot lot_size step params
        price_fn expiry_t r iv).legs = [] ∨
     ((build_iron_condor spot lot_size step params
        price_fn expiry_t r iv).legs.length = 4 ∧
      params.min_credit_per_ic ≤
        net_credit (build_iron_condor spot lot_size step params
          price_fn expiry_t r iv) * lot_size)) := by
  constructor
  · unfold build_iron_condor_balanced
    dsimp only
    split
    · exact Or.inl rfl
    · exact Or.inr ⟨rfl, by linarith [not_lt.mp (by assumption)]⟩
  · unfold build_iron_condor
    dsimp only
    split
    · exact Or.inl rfl
    · exact Or.inr ⟨rfl, by linarith [not_lt.mp (by assumption)]⟩

/-- Witness for C3: a position 3 days from expiry (below the 4-DTE
threshold) that is simultaneously +100% in profit — far beyond the 75%
target — still receives EXIT_ALL with the time-exit reason. -/
theorem check_exits_time_exit_priority_witness :
    days_to_expiry posE.expiry_date nowE ≤ cfgE.time_exit_dte ∧
    calculate_profit_pct posE curE ≥ cfgE.profit_target ∧
    check_exits cfgE nowE posE curE =
      { action := .EXIT_ALL, reason := .timeExit 3 4, percentage := none } := by
  refine ⟨by decide, by norm_num [calculate_profit_pct, posE, curE, cfgE], ?_⟩
  have h := check_exits_time_exit_priority cfgE nowE posE curE (by decide)
  rw [h]
  norm_num [days_to_expiry, posE, nowE, cfgE]

/-- The decision's `stability` field equals the stability count stored in
the updated controller state. -/
lemma determine_active_strategy_stability_eq (cfg : RegimeConfig)
    (st : ControllerState) (md : MarketData) :
    (determine_active_strategy cfg st md).1.stability =
      (determine_active_strategy cfg st md).2.regime_stability_count := by
  unfold determine_active_strategy
  dsimp only
  split <;> [rfl; skip]
  split <;> rfl

/-- On a regime change, `should_bot_3_trade` denies trading; when the
momentum flag was enabled by the decision table the reason is the
waiting-for-stability one. -/
lemma should_bot_3_trade_false_of_change (cfg : RegimeConfig)
    (st : ControllerState) (md : MarketData)
    (h : some (classify cfg md) ≠ st.current_regime) :
    (should_bot_3_trade cfg st md).1.1 = false ∧
    ((determine_active_strategy cfg st md).1.bot_3_momentum = true →
      (should_bot_3_trade cfg st md).1.2 = .waitingForStability) := by
  unfold should_bot_3_trade determine_active_strategy
  dsimp only
  rcases hc : classify cfg md <;> rw [hc] at h <;> simp [h]

/-- On a regime change, `should_bot_2_trade` denies trading; when the
iron-condor flag was enabled by the decision table the reason is the
waiting-for-stability one. -/
lemma should_bot_2_trade_false_of_change (cfg : RegimeConfig)
    (st : ControllerState) (md : MarketData)
    (h : some (classify cfg md) ≠ st.current_regime) :
    (should_bot_2_trade cfg st md).1.1 = false ∧
    ((determine_active_strategy cfg st md).1.bot_2_iron_condor = true →
      (should_bot_2_trade cfg st md).1.2 = .waitingForStability) := by
  unfold should_bot_2_trade determine_active_strategy
  dsimp only
  rcases hc : classify cfg md <;> rw [hc] at h <;> simp [h]

/-- A granted `should_bot_3_trade` implies a stability count of at least
2 in the resulting state. -/
lemma should_bot_3_trade_true_stability (cfg : RegimeConfig)
    (st : ControllerState) (md : MarketData)
    (h : (should_bot_3_trade cfg st md).1.1 = true) :
    2 ≤ (should_bot_3_trade cfg st md).2.regime_stability_count := by
  rw [should_bot_3_trade_state, ← determine_active_strategy_stability_eq]
  unfold should_bot_3_trade at h
  dsimp only at h
  split at h
  · split at h
    · assumption
    · exact absurd h (by simp)
  · exact absurd h (by simp)

/-- A granted `should_bot_2_trade` implies a stability count of at least
2 in the resulting state. -/
lemma should_bot_2_trade_true_stability (cfg : RegimeConfig)
    (st : ControllerState) (md : MarketData)
    (h : (should_bot_2_trade cfg st md).1.1 = true) :
    2 ≤ (should_bot_2_trade cfg st md).2.regime_stability_count := by
  rw [should_bot_2_trade_state, ← determine_active_strategy_stability_eq]
  unfold should_bot_2_trade at h
  dsimp only at h
  split at h
  · split at h
    · assumption
    · exact absurd h (by simp)
  · exact absurd h (by simp)

/-- C4: after a regime change both can-trade checks return false — with
the waiting-for-stability reason whenever the decision table otherwise
enables the strategy — and they return true only once the stability count
has reached at least 2; a single-bar flicker A→B→A resets the counter to
1 on each of the two changes, so neither the second nor the third query
unlocks trading. -/
theorem can_trade_stability_debounce (cfg : RegimeConfig)
    (st : ControllerState) (md : MarketData)
    (h : some (classify cfg md) ≠ st.current_regime)
    (st1 : ControllerState) (md1 md2 md3 : MarketData)
    (h12 : classify cfg md2 ≠ classify cfg md1)
    (h31 : classify cfg md3 = classify cfg md1) :
    ((should_bot_3_trade cfg st md).1.1 = false ∧
     (should_bot_2_trade cfg st md).1.1 = false) ∧
    (((determine_active_strategy cfg st md).1.bot_3_momentum = true →
        (should_bot_3_trade cfg st md).1.2 = .waitingForStability) ∧
     ((determine_active_strategy cfg st md).1.bot_2_iron_condor = true →
        (should_bot_2_trade cfg st md).1.2 = .waitingForStability)) ∧
    ((∀ st2 md4, (should_bot_3_trade cfg st2 md4).1.1 = true →
        2 ≤ (should_bot_3_trade cfg st2 md4).2.regime_stability_count) ∧
     (∀ st2 md4, (should_bot_2_trade cfg st2 md4).1.1 = true →
        2 ≤ (should_bot_2_trade cfg st2 md4).2.regime_stability_count)) ∧
    ((should_bot_3_trade cfg (should_bot_3_trade cfg st1 md1).2 md2).2.regime_stability_count = 1 ∧
     (should_bot_3_trade cfg
        (should_bot_3_trade cfg (should_bot_3_trade cfg st1 md1).2 md2).2
        md3).2.regime_stability_count = 1 ∧
     (should_bot_3_trade cfg (should_bot_3_trade cfg st1 md1).2 md2).1.1 = false ∧
     (should_bot_3_trade cfg
        (should_bot_3_trade cfg (should_bot_3_trade cfg st1 md1).2 md2).2
        md3).1.1 = false) := by
  have hq1 : (should_bot_3_trade cfg st1 md1).2.current_regime =
      some (classify cfg md1) := by
    rw [should_bot_3_trade_state, determine_active_strategy_state]
  have h2 : some (classify cfg md2) ≠
      (should_bot_3_trade cfg st1 md1).2.current_regime := by
    rw [hq1]
    intro hx
    exact h12 (Option.some.inj hx)
  have hq2 : (should_bot_3_trade cfg (should_bot_3_trade cfg st1 md1).2 md2).2.current_regime =
      some (classify cfg md2) := by
    rw [should_bot_3_trade_state, determine_active_strategy_state]
  have h3 : some (classify cfg md3) ≠
      (should_bot_3_trade cfg (should_bot_3_trade cfg st1 md1).2 md2).2.current_regime := by
    rw [hq2]
    intro hx
    exact Ne.symm h12 (h31.symm.trans (Option.some.inj hx))
  refine ⟨⟨(should_bot_3_trade_false_of_change cfg st md h).1,
          (should_bot_2_trade_false_of_change cfg st md h).1⟩,
         ⟨(should_bot_3_trade_false_of_change cfg st md h).2,
          (should_bot_2_trade_false_of_change cfg st md h).2⟩,
         ⟨fun st2 md4 => should_bot_3_trade_true_stability cfg st2 md4,
          fun st2 md4 => should_bot_2_trade_true_stability cfg st2 md4⟩,
         ?_, ?_, ?_, ?_⟩
  · simp only [should_bot_3_trade_state, determine_active_strategy_state]
    simp [h12]
  · simp only [should_bot_3_trade_state, determine_active_strategy_state]
    simp [h31, Ne.symm h12]
  · exact (should_bot_3_trade_false_of_change cfg _ md2 h2).1
  · exact (should_bot_3_trade_false_of_change cfg _ md3 h3).1

/-- The fixture snapshot `mdTrend` classifies as TRENDING. -/
lemma classify_cfgR_mdTrend : classify cfgR mdTrend = .trending := by
  norm_num [classify, cfgR, mdTrend]

/-- The fixture snapshot `mdVol` classifies as VOLATILE. -/
lemma classify_cfgR_mdVol : classify cfgR mdVol = .volatile := by
  norm_num [classify, cfgR, mdVol]

/-- Witness for C4: starting from an uninitialised controller the first
query is denied, and a TRENDING→VOLATILE→TRENDING flicker leaves the
counter at 1 after each change with both queries denied — even from a
state that had already been stable for 5 bars. -/
theorem can_trade_stability_debounce_witness :
    some (classify cfgR mdTrend) ≠ (ControllerState.mk none 0).current_regime ∧
    classify cfgR mdVol ≠ classify cfgR mdTrend ∧
    classify cfgR mdTrend = classify cfgR mdTrend ∧
    ((should_bot_3_trade cfgR
        (should_bot_3_trade cfgR ⟨some .trending, 5⟩ mdTrend).2
        mdVol).2.regime_stability_count = 1 ∧
     (should_bot_3_trade cfgR
        (should_bot_3_trade cfgR
          (should_bot_3_trade cfgR ⟨some .trending, 5⟩ mdTrend).2 mdVol).2
        mdTrend).2.regime_stability_count = 1 ∧
     (should_bot_3_trade cfgR
        (should_bot_3_trade cfgR ⟨some .trending, 5⟩ mdTrend).2 mdVol).1.1 = false ∧
     (should_bot_3_trade cfgR
        (should_bot_3_trade cfgR
          (should_bot_3_trade cfgR ⟨some .trending, 5⟩ mdTrend).2 mdVol).2
        mdTrend).1.1 = false) := by
  have h : some (classify cfgR mdTrend) ≠ (ControllerState.mk none 0).current_regime := by
    simp [classify_cfgR_mdTrend]
  have h12 : classify cfgR mdVol ≠ classify cfgR mdTrend := by
    rw [classify_cfgR_mdVol, classify_cfgR_mdTrend]
    simp
  have h31 : classify cfgR mdTrend = classify cfgR mdTrend := rfl
  exact ⟨h, h12, h31,
    (can_trade_stability_debounce cfgR ⟨none, 0⟩ mdTrend h
      ⟨some .trending, 5⟩ mdTrend mdVol mdTrend h12 h31).2.2.2⟩

/-- Counterexample for C5 as frozen: the source's `round_to_up` applies
the integer ceiling idiom `(x + step - 1) // step` to floats, so for the
fractional spot 100.5 (step 10, target 10, wing 10) the short call lands
at 110 while the claimed ceiling formula demands 120; and for step 1/2
(spot 9.25, target 1, wing 1) the put and call OTM distances are 5/4 and
1/4, which differ by more than one step. -/
theorem select_balanced_strikes_formula_counterexample :
    ((select_balanced_strikes_by_distance (201/2) 10 10 10).2.2.1 = 110 ∧
     (⌈((201/2 : ℚ) + 10) / 10⌉ : ℚ) * 10 = 120) ∧
    ((select_balanced_strikes_by_distance (37/4) (1/2) 1 1).2.2.1 - 37/4 = 1/4 ∧
     (37/4 : ℚ) - (select_balanced_strikes_by_distance (37/4) (1/2) 1 1).1 = 5/4 ∧
     ¬ |(1/4 : ℚ) - 5/4| ≤ 1/2) := by
  refine ⟨⟨?_, ?_⟩, ?_, ?_, by norm_num⟩
  · norm_num [select_balanced_strikes_by_distance, round_to_up, round_to_down]
  · rw [show ((201/2 : ℚ) + 10) / 10 = 221/20 by norm_num,
      show (⌈(221/20 : ℚ)⌉ : ℤ) = 12 by rw [Int.ceil_eq_iff] <;> norm_num]
    norm_num
  · norm_num [select_balanced_strikes_by_distance, round_to_up, round_to_down]
  · norm_num [select_balanced_strikes_by_distance, round_to_up, round_to_down]

/-- On integers (positive divisor) the `+ s - 1` floor idiom computes the
ceiling of the quotient. -/
lemma floor_add_sub_one_div_eq_ceil (x s : ℤ) (hs : 0 < s) :
    ⌊((x : ℚ) + s - 1) / s⌋ = ⌈(x : ℚ) / s⌉ := by
  have hs' : (0 : ℚ) < s := by exact_mod_cast hs
  have hs1 : (1 : ℤ) ≤ s := hs
  set q := ⌈(x : ℚ) / s⌉ with hq
  have h1 : (x : ℚ) / s ≤ q := Int.le_ceil _
  have h2 : (q : ℚ) < (x : ℚ) / s + 1 := Int.ceil_lt_add_one _
  have hx1 : (x : ℚ) ≤ q * s := by
    have := (div_le_iff hs').mp h1
    linarith
  have hx2 : ((q - 1 : ℤ) : ℚ) * s < x := by
    push_cast
    have h3 : ((q : ℚ) - 1) < (x : ℚ) / s := by linarith
    have := (lt_div_iff hs').mp h3
    linarith
  have hx2' : (q - 1) * s < x := by exact_mod_cast hx2
  have hx2'' : (q - 1) * s + 1 ≤ x := Int.add_one_le_iff.mpr hx2'
  rw [Int.floor_eq_iff]
  constructor
  · rw [le_div_iff hs']
    have : ((q - 1) * s + 1 : ℚ) ≤ x := by exact_mod_cast hx2''
    push_cast at this
    have hcast : (1 : ℚ) ≤ s := by exact_mod_cast hs1
    nlinarith
  · rw [div_lt_iff hs']
    have hcast : (1 : ℚ) ≤ s := by exact_mod_cast hs1
    push_cast
    nlinarith

/-- C5 (amended): for spot, step, target distance and wing width on the
integer grid, with step > 0, target ≥ step and wing ≥ step,
`select_balanced_strikes_by_distance` returns
short_put = ⌊(spot − target)/step⌋·step and
short_call = ⌊(spot + target + step − 1)/step⌋·step, which on these
inputs equals ⌈(spot + target)/step⌉·step; the wings sit exactly
wing_width beyond the shorts (so the two wing widths are exactly equal),
and the call and put OTM distances agree to within one step.  (On
fractional inputs the ceiling identity and the one-step symmetry both
fail, per the counterexample.) -/
theorem select_balanced_strikes_spec (a s t w : ℤ)
    (hs : 0 < s) (ht : s ≤ t) (hw : s ≤ w) :
    ((select_balanced_strikes_by_distance (a : ℚ) (s : ℚ) (t : ℚ) (w : ℚ)).1 = (⌊((a : ℚ) - t) / s⌋ : ℚ) * s ∧
     (select_balanced_strikes_by_distance (a : ℚ) (s : ℚ) (t : ℚ) (w : ℚ)).2.2.1 = (⌈((a : ℚ) + t) / s⌉ : ℚ) * s) ∧
    ((select_balanced_strikes_by_distance (a : ℚ) (s : ℚ) (t : ℚ) (w : ℚ)).2.1 = (select_balanced_strikes_by_distance (a : ℚ) (s : ℚ) (t : ℚ) (w : ℚ)).1 - w ∧
     (select_balanced_strikes_by_distance (a : ℚ) (s : ℚ) (t : ℚ) (w : ℚ)).2.2.2 = (select_balanced_strikes_by_distance (a : ℚ) (s : ℚ) (t : ℚ) (w : ℚ)).2.2.1 + w ∧
     (select_balanced_strikes_by_distance (a : ℚ) (s : ℚ) (t : ℚ) (w : ℚ)).1 - (select_balanced_strikes_by_distance (a : ℚ) (s : ℚ) (t : ℚ) (w : ℚ)).2.1 =
       (select_balanced_strikes_by_distance (a : ℚ) (s : ℚ) (t : ℚ) (w : ℚ)).2.2.2 - (select_balanced_strikes_by_distance (a : ℚ) (s : ℚ) (t : ℚ) (w : ℚ)).2.2.1) ∧
    |((select_balanced_strikes_by_distance (a : ℚ) (s : ℚ) (t : ℚ) (w : ℚ)).2.2.1 - a) - ((a : ℚ) - (select_balanced_strikes_by_distance (a : ℚ) (s : ℚ) (t : ℚ) (w : ℚ)).1)| ≤ s := by
  have hs' : (0 : ℚ) < s := by exact_mod_cast hs
  have ht' : (0 : ℚ) < t := by
    have : (0 : ℤ) < t := lt_of_lt_of_le hs ht
    exact_mod_cast this
  have hw' : (0 : ℚ) < w := by
    have : (0 : ℤ) < w := lt_of_lt_of_le hs hw
    exact_mod_cast this
  have hts : ¬ ((t : ℚ) ≤ 0) := not_le.mpr ht'
  have hws : ¬ ((w : ℚ) ≤ 0) := not_le.mpr hw'
  have hcall : round_to_up ((a : ℚ) + t) s = (⌈((a : ℚ) + t) / s⌉ : ℚ) * s := by
    unfold round_to_up
    rw [show ((a : ℚ) + t) = ((a + t : ℤ) : ℚ) by push_cast; ring] at *
    rw [floor_add_sub_one_div_eq_ceil (a + t) s hs]
  refine ⟨⟨?_, ?_⟩, ⟨?_, ?_, ?_⟩, ?_⟩
  · simp only [select_balanced_strikes_by_distance, if_neg hts, if_neg hws]
    rfl
  · simp only [select_balanced_strikes_by_distance, if_neg hts, if_neg hws]
    exact hcall
  · simp only [select_balanced_strikes_by_distance, if_neg hts, if_neg hws]
  · simp only [select_balanced_strikes_by_distance, if_neg hts, if_neg hws]
  · simp only [select_balanced_strikes_by_distance, if_neg hts, if_neg hws]
    ring
  · simp only [select_balanced_strikes_by_distance, if_neg hts, if_neg hws, hcall]
    unfold round_to_down
    have hfl : (⌊((a : ℚ) - t) / s⌋ : ℚ) ≤ ((a : ℚ) - t) / s := Int.floor_le _
    have hfg : ((a : ℚ) - t) / s - 1 < (⌊((a : ℚ) - t) / s⌋ : ℚ) :=
      Int.sub_one_lt_floor _
    have hcl : ((a : ℚ) + t) / s ≤ (⌈((a : ℚ) + t) / s⌉ : ℚ) := Int.le_ceil _
    have hcg : (⌈((a : ℚ) + t) / s⌉ : ℚ) < ((a : ℚ) + t) / s + 1 :=
      Int.ceil_lt_add_one _
    have h1 : (⌊((a : ℚ) - t) / s⌋ : ℚ) * s ≤ (a : ℚ) - t := by
      have := mul_le_mul_of_nonneg_right hfl (le_of_lt hs')
      rwa [div_mul_cancel₀ _ (ne_of_gt hs')] at this
    have h2 : (a : ℚ) - t - s < (⌊((a : ℚ) - t) / s⌋ : ℚ) * s := by
      have := mul_lt_mul_of_pos_right hfg hs'
      rw [sub_mul, div_mul_cancel₀ _ (ne_of_gt hs'), one_mul] at this
      linarith
    have h3 : (a : ℚ) + t ≤ (⌈((a : ℚ) + t) / s⌉ : ℚ) * s := by
      have := mul_le_mul_of_nonneg_right hcl (le_of_lt hs')
      rwa [div_mul_cancel₀ _ (ne_of_gt hs')] at this
    have h4 : (⌈((a : ℚ) + t) / s⌉ : ℚ) * s < (a : ℚ) + t + s := by
      have := mul_lt_mul_of_pos_right hcg hs'
      rw [add_mul, div_mul_cancel₀ _ (ne_of_gt hs'), one_mul] at this
      linarith
    rw [abs_le]
    constructor <;> linarith

/-- Witness for C5: the spec scenario spot 23500, step 50, target 300,
wing 400 satisfies the amended statement (yielding strikes
23200/22800/23800/24200). -/
theorem select_balanced_strikes_spec_witness :
    (0 : ℤ) < 50 ∧ (50 : ℤ) ≤ 300 ∧ (50 : ℤ) ≤ 400 ∧
    (((select_balanced_strikes_by_distance ((23500 : ℤ) : ℚ) ((50 : ℤ) : ℚ) ((300 : ℤ) : ℚ) ((400 : ℤ) : ℚ)).1 = (⌊(((23500 : ℤ) : ℚ) - ((300 : ℤ) : ℚ)) / ((50 : ℤ) : ℚ)⌋ : ℚ) * ((50 : ℤ) : ℚ) ∧
      (select_balanced_strikes_by_distance ((23500 : ℤ) : ℚ) ((50 : ℤ) : ℚ) ((300 : ℤ) : ℚ) ((400 : ℤ) : ℚ)).2.2.1 = (⌈(((23500 : ℤ) : ℚ) + ((300 : ℤ) : ℚ)) / ((50 : ℤ) : ℚ)⌉ : ℚ) * ((50 : ℤ) : ℚ)) ∧
     ((select_balanced_strikes_by_distance ((23500 : ℤ) : ℚ) ((50 : ℤ) : ℚ) ((300 : ℤ) : ℚ) ((400 : ℤ) : ℚ)).2.1 = (select_balanced_strikes_by_distance ((23500 : ℤ) : ℚ) ((50 : ℤ) : ℚ) ((300 : ℤ) : ℚ) ((400 : ℤ) : ℚ)).1 - ((400 : ℤ) : ℚ) ∧
      (select_balanced_strikes_by_distance ((23500 : ℤ) : ℚ) ((50 : ℤ) : ℚ) ((300 : ℤ) : ℚ) ((400 : ℤ) : ℚ)).2.2.2 = (select_balanced_strikes_by_distance ((23500 : ℤ) : ℚ) ((50 : ℤ) : ℚ) ((300 : ℤ) : ℚ) ((400 : ℤ) : ℚ)).2.2.1 + ((400 : ℤ) : ℚ) ∧
      (select_balanced_strikes_by_distance ((23500 : ℤ) : ℚ) ((50 : ℤ) : ℚ) ((300 : ℤ) : ℚ) ((400 : ℤ) : ℚ)).1 - (select_balanced_strikes_by_distance ((23500 : ℤ) : ℚ) ((50 : ℤ) : ℚ) ((300 : ℤ) : ℚ) ((400 : ℤ) : ℚ)).2.1 =
        (select_balanced_strikes_by_distance ((23500 : ℤ) : ℚ) ((50 : ℤ) : ℚ) ((300 : ℤ) : ℚ) ((400 : ℤ) : ℚ)).2.2.2 - (select_balanced_strikes_by_distance ((23500 : ℤ) : ℚ) ((50 : ℤ) : ℚ) ((300 : ℤ) : ℚ) ((400 : ℤ) : ℚ)).2.2.1) ∧
     |((select_balanced_strikes_by_distance ((23500 : ℤ) : ℚ) ((50 : ℤ) : ℚ) ((300 : ℤ) : ℚ) ((400 : ℤ) : ℚ)).2.2.1 - ((23500 : ℤ) : ℚ)) - (((23500 : ℤ) : ℚ) - (select_balanced_strikes_by_distance ((23500 : ℤ) : ℚ) ((50 : ℤ) : ℚ) ((300 : ℤ) : ℚ) ((400 : ℤ) : ℚ)).1)| ≤ ((50 : ℤ) : ℚ)) := by
  exact ⟨by norm_num, by norm_num, by norm_num,
    select_balanced_strikes_spec 23500 50 300 400 (by norm_num) (by norm_num) (by norm_num)⟩

/-- Counterexample for C7 as frozen: on a five-leg structure
`validate_balanced_ic` returns early after the leg-count check, so the
strike-order check — violated here, since the extracted short call (100)
is below the spot (110) which is below the extracted short put (120) —
is never evaluated and no strike-order reason appears in the returned
list.  Not every violated structural check is reported. -/
theorem validate_balanced_ic_counterexample :
    (validate_balanced_ic 110 ic5W icConstraintsW 75).2 = [.notFourLegs] ∧
    find_leg_strike ic5W .put .sell = some 120 ∧
    find_leg_strike ic5W .call .sell = some 100 ∧
    ¬((100 : ℚ) > 110 ∧ (110 : ℚ) > 120) ∧
    (∀ x y z, ICReason.strikeOrder x y z ∉
      (validate_balanced_ic 110 ic5W icConstraintsW 75).2) := by
  have hres : (validate_balanced_ic 110 ic5W icConstraintsW 75).2 = [.notFourLegs] := by
    norm_num [validate_balanced_ic, ic5W, icConstraintsW]
  refine ⟨hres, rfl, rfl, by norm_num, ?_⟩
  intro x y z hx
  rw [hres] at hx
  simp at hx

/-- Membership in a conditional singleton list. -/
lemma mem_ite_singleton {A : Type} (a b : A) (c : Prop) [Decidable c] :
    (a ∈ (if c then [b] else [])) ↔ (c ∧ a = b) := by
  split <;> simp_all

/-- C7 (amended): for a condor with exactly four legs, one per role (as
the builders construct), `validate_balanced_ic` evaluates every
structural check and accumulates every violated reason into the returned
list without short-circuiting: success holds iff the list is empty, and
each of the lot-size, strike-order, wing-width, distance-balance and
OTM-bound reasons is in the list exactly when its check fails.  (When the
leg count is not 4, or a role is missing, the function instead returns
early — per the counterexample.) -/
theorem validate_balanced_ic_accumulates
    (spot sp sc lp lc : ℚ) (q1 q2 q3 q4 : ℤ) (p1 p2 p3 p4 : ℚ)
    (c : ICConstraints) (lot_size : ℤ) :
    let ic : IronCondor := ⟨[⟨sp, .put, .sell, q1, p1⟩, ⟨sc, .call, .sell, q2, p2⟩,
      ⟨lp, .put, .buy, q3, p3⟩, ⟨lc, .call, .buy, q4, p4⟩]⟩
    let res := validate_balanced_ic spot ic c lot_size
    (res.1 = true ↔ res.2 = []) ∧
    (∀ req, c.required_lot_size = some req →
      (ICReason.lotSizeMismatch lot_size req ∈ res.2 ↔ lot_size ≠ req)) ∧
    (ICReason.strikeOrder sc spot sp ∈ res.2 ↔ ¬(sc > spot ∧ spot > sp)) ∧
    (ICReason.wingsUnequal (sp - lp) (lc - sc) ∈ res.2 ↔
      (c.require_equal_wings = true ∧ |(sp - lp) - (lc - sc)| > 1/1000000)) ∧
    (ICReason.unbalancedDistance (spot - sp) (sc - spot) ∈ res.2 ↔
      |(spot - sp) - (sc - spot)| > max 1 ((2/10) * min (spot - sp) (sc - spot))) ∧
    (ICReason.putDistanceOutside (spot - sp) c.min_otm_distance c.max_otm_distance ∈ res.2 ↔
      ¬(c.min_otm_distance ≤ spot - sp ∧ spot - sp ≤ c.max_otm_distance)) ∧
    (ICReason.callDistanceOutside (sc - spot) c.min_otm_distance c.max_otm_distance ∈ res.2 ↔
      ¬(c.min_otm_distance ≤ sc - spot ∧ sc - spot ≤ c.max_otm_distance)) := by
  intro ic res
  have hfind1 : find_leg_strike ic .put .sell = some sp := by
    simp [find_leg_strike, List.find?, ic]
  have hfind2 : find_leg_strike ic .call .sell = some sc := by
    simp [find_leg_strike, List.find?, ic]
  have hfind3 : find_leg_strike ic .put .buy = some lp := by
    simp [find_leg_strike, List.find?, ic]
  have hfind4 : find_leg_strike ic .call .buy = some lc := by
    simp [find_leg_strike, List.find?, ic]
  have hcond : ¬(ic.legs = [] ∨ ic.legs.length ≠ 4) := by simp [ic]
  unfold_let res
  unfold validate_balanced_ic
  rw [if_neg hcond, hfind1, hfind2, hfind3, hfind4]
  dsimp only
  rcases c with ⟨cmin, cmax, ceq, creq⟩
  rcases creq with _ | req0
  · refine ⟨?_, ?_, ?_, ?_, ?_, ?_, ?_⟩
    · simp [List.mem_append, mem_ite_singleton, List.length_eq_zero, List.append_eq_nil,
        Decidable.imp_iff_not_or, not_lt, Bool.not_eq_true]
    · intro req hreq
      exact absurd hreq (by simp)
    · simp [List.mem_append, mem_ite_singleton]
    · simp [List.mem_append, mem_ite_singleton]
    · simp [List.mem_append, mem_ite_singleton]
    · simp [List.mem_append, mem_ite_singleton]
    · simp [List.mem_append, mem_ite_singleton]
  · refine ⟨?_, ?_, ?_, ?_, ?_, ?_, ?_⟩
    · simp [List.mem_append, mem_ite_singleton, List.length_eq_zero, List.append_eq_nil,
        Decidable.imp_iff_not_or, not_lt, Bool.not_eq_true]
    · intro req hreq
      obtain rfl := Option.some.inj hreq
      simp [List.mem_append, mem_ite_singleton]
    · simp [List.mem_append, mem_ite_singleton]
    · simp [List.mem_append, mem_ite_singleton]
    · simp [List.mem_append, mem_ite_singleton]
    · simp [List.mem_append, mem_ite_singleton]
    · simp [List.mem_append, mem_ite_singleton]

/-- One PARTIAL_EXIT step through `exit_position` preserves the total
quantity, the status and the sum partial_exit_quantity +
remaining_quantity, and keeps the remaining quantity positive when the
percentage is in [0, 1). -/
lemma exit_position_partial_step (lot_size : ℤ) (hlot : 0 < lot_size)
    (p : Position) (pct current_premium : ℚ) (h0 : 0 ≤ pct) (h1 : pct < 1)
    (hrem : 0 < p.remaining_quantity) :
    (exit_position lot_size p
      { action := .PARTIAL_EXIT, percentage := pct } current_premium).2.quantity
        = p.quantity ∧
    (exit_position lot_size p
      { action := .PARTIAL_EXIT, percentage := pct } current_premium).2.status
        = p.status ∧
    (exit_position lot_size p
      { action := .PARTIAL_EXIT, percentage := pct } current_premium).2.partial_exit_quantity
      + (exit_position lot_size p
      { action := .PARTIAL_EXIT, percentage := pct } current_premium).2.remaining_quantity
        = p.partial_exit_quantity + p.remaining_quantity ∧
    0 < (exit_position lot_size p
      { action := .PARTIAL_EXIT, percentage := pct } current_premium).2.remaining_quantity := by
  have hremq : (0 : ℚ) < (p.remaining_quantity : ℚ) := by exact_mod_cast hrem
  have hprod : (0 : ℚ) ≤ (p.remaining_quantity : ℚ) * pct :=
    mul_nonneg (le_of_lt hremq) h0
  have he0 : pyInt ((p.remaining_quantity : ℚ) * pct) =
      ⌊(p.remaining_quantity : ℚ) * pct⌋ := by
    unfold pyInt
    rw [if_neg (not_lt.mpr hprod)]
  have he0nn : 0 ≤ ⌊(p.remaining_quantity : ℚ) * pct⌋ := Int.floor_nonneg.mpr hprod
  have he0lt : ⌊(p.remaining_quantity : ℚ) * pct⌋ < p.remaining_quantity := by
    have h := Int.floor_le ((p.remaining_quantity : ℚ) * pct)
    have h2 : (p.remaining_quantity : ℚ) * pct < p.remaining_quantity :=
      mul_lt_of_lt_one_right hremq h1
    have : (⌊(p.remaining_quantity : ℚ) * pct⌋ : ℚ) < (p.remaining_quantity : ℚ) :=
      lt_of_le_of_lt h h2
    exact_mod_cast this
  have heqle : Int.fdiv ⌊(p.remaining_quantity : ℚ) * pct⌋ lot_size * lot_size ≤
      ⌊(p.remaining_quantity : ℚ) * pct⌋ := by
    rw [Int.fdiv_eq_ediv _ (le_of_lt hlot)]
    exact Int.ediv_mul_le _ (ne_of_gt hlot)
  unfold exit_position
  dsimp only
  rw [if_pos rfl, he0]
  split
  · exact ⟨rfl, rfl, rfl, hrem⟩
  · refine ⟨rfl, rfl, ?_, ?_⟩
    · dsimp only
      ring
    · dsimp only
      omega

/-- Folding any sequence of PARTIAL_EXIT operations with percentages in
[0, 1) preserves quantity, status and the conservation sum, and never
drives the remaining quantity to zero. -/
lemma apply_partial_exits_invariant (lot_size : ℤ) (hlot : 0 < lot_size)
    (steps : List (ℚ × ℚ)) (hsteps : ∀ s ∈ steps, 0 ≤ s.1 ∧ s.1 < 1)
    (p : Position) (hrem : 0 < p.remaining_quantity) :
    (apply_partial_exits lot_size steps p).quantity = p.quantity ∧
    (apply_partial_exits lot_size steps p).status = p.status ∧
    (apply_partial_exits lot_size steps p).partial_exit_quantity
      + (apply_partial_exits lot_size steps p).remaining_quantity
        = p.partial_exit_quantity + p.remaining_quantity ∧
    0 < (apply_partial_exits lot_size steps p).remaining_quantity := by
  induction steps generalizing p with
  | nil => exact ⟨rfl, rfl, rfl, hrem⟩
  | cons s rest ih =>
    have hs := hsteps s (List.mem_cons_self s rest)
    have hstep := exit_position_partial_step lot_size hlot p s.1 s.2 hs.1 hs.2 hrem
    have hfold : apply_partial_exits lot_size (s :: rest) p =
        apply_partial_exits lot_size rest
          ((exit_position lot_size p
            { action := .PARTIAL_EXIT, percentage := s.1 } s.2).2) := by
      unfold apply_partial_exits
      rw [List.foldl_cons]
    have hrest := ih (fun t ht => hsteps t (List.mem_cons_of_mem s ht)) _ hstep.2.2.2
    rw [hfold]
    exact ⟨hrest.1.trans hstep.1, hrest.2.1.trans hstep.2.1,
           hrest.2.2.1.trans hstep.2.2.1, hrest.2.2.2⟩

/-- The fixture entry evaluates to the concrete position `posEnteredW`. -/
lemma enter_position_fixture :
    (enter_position pmcfgW rcfgW todayW pm0 rm0 sigW 80).1 = some posEnteredW := by
  norm_num [enter_position, calculate_position_size, select_strike, find_expiry,
    estimate_premium, pyRound, pyRound2, pyInt, validate_entry, update_loss_counters,
    calculate_position_risk, calculate_total_exposure, weekday, get_week_start,
    record_position_entry, pmcfgW, rcfgW, todayW, pm0, rm0, sigW, posEnteredW,
    Int.fdiv, Position.mk.injEq, abs_of_nonneg]

/-- Counterexample for C2 as frozen: a position really created by
`enter_position` (quantity 1050) which is closed by a single EXIT_ALL
ends with partial_exit_quantity + remaining_quantity = 0 ≠ 1050 = quantity
even though its status is CLOSED: the conservation equation does not hold
after the final full-exit step, because the EXIT_ALL branch zeroes
remaining_quantity without moving it into partial_exit_quantity. -/
theorem position_quantity_conservation_counterexample :
    ((enter_position pmcfgW rcfgW todayW pm0 rm0 sigW 80).1.map (fun p =>
        ((exit_position 75 p { action := .EXIT_ALL, percentage := 1/2 } 50).2.partial_exit_quantity
          + (exit_position 75 p { action := .EXIT_ALL, percentage := 1/2 } 50).2.remaining_quantity,
         (exit_position 75 p { action := .EXIT_ALL, percentage := 1/2 } 50).2.status,
         p.quantity)))
      = some (0, .closed, 1050) ∧
    (0 : ℤ) < 1050 := by
  constructor
  · rw [enter_position_fixture]
    simp only [Option.map_some']
    unfold exit_position
    dsimp only
    rw [if_neg (by decide : ¬(ActionKind.EXIT_ALL = ActionKind.PARTIAL_EXIT))]
    norm_num [posEnteredW]
  · omega


/-- C2 (amended): for every position created by `enter_position`, the
equation partial_exit_quantity + remaining_quantity = quantity holds
after entry and after every prefix of PARTIAL_EXIT operations (each with
percentage in [0, 1)), during which remaining_quantity stays positive and
the status is never CLOSED; the final EXIT_ALL leaves
remaining_quantity = 0 with status CLOSED.  Thus remaining_quantity = 0
iff status = CLOSED at every stage, but at the final step
partial_exit_quantity is left at the total of the partial exits, so the
conservation sum no longer equals quantity there (see the
counterexample). -/
theorem position_quantity_conservation
    (pmcfg : PMConfig) (rcfg : RiskConfig) (today : Today) (pm : PMState)
    (rm : RMState) (sig : SignalData) (conf : ℚ) (p : Position)
    (hp : (enter_position pmcfg rcfg today pm rm sig conf).1 = some p)
    (hlot : 0 < pmcfg.instrument_lot_size)
    (steps : List (ℚ × ℚ)) (hsteps : ∀ s ∈ steps, 0 ≤ s.1 ∧ s.1 < 1)
    (final_pct final_premium : ℚ) :
    (p.partial_exit_quantity = 0 ∧ p.remaining_quantity = p.quantity ∧
     0 < p.remaining_quantity ∧ p.status = .pending) ∧
    (∀ n,
      (apply_partial_exits pmcfg.instrument_lot_size (steps.take n) p).partial_exit_quantity
        + (apply_partial_exits pmcfg.instrument_lot_size (steps.take n) p).remaining_quantity
        = (apply_partial_exits pmcfg.instrument_lot_size (steps.take n) p).quantity ∧
      0 < (apply_partial_exits pmcfg.instrument_lot_size (steps.take n) p).remaining_quantity ∧
      (apply_partial_exits pmcfg.instrument_lot_size (steps.take n) p).status ≠ .closed) ∧
    ((exit_position pmcfg.instrument_lot_size
        (apply_partial_exits pmcfg.instrument_lot_size steps p)
        { action := .EXIT_ALL, percentage := final_pct } final_premium).2.remaining_quantity = 0 ∧
     (exit_position pmcfg.instrument_lot_size
        (apply_partial_exits pmcfg.instrument_lot_size steps p)
        { action := .EXIT_ALL, percentage := final_pct } final_premium).2.status = .closed) := by
  unfold enter_position at hp
  dsimp only at hp
  split at hp
  · exact absurd hp (by simp)
  · have hpeq := (Option.some.inj hp).symm
    have hpquant : p.partial_exit_quantity = 0 := by rw [hpeq]
    have hremeq : p.remaining_quantity = p.quantity := by rw [hpeq]
    have hstat : p.status = .pending := by rw [hpeq]
    have hqty : 0 < p.quantity := by
      rw [hpeq]
      dsimp only
      exact mul_pos (lt_of_lt_of_le one_pos (le_max_left 1 _)) hlot
    have hrem : 0 < p.remaining_quantity := hremeq ▸ hqty
    refine ⟨⟨hpquant, hremeq, hrem, hstat⟩, ?_, ?_, ?_⟩
    · intro n
      have htk : ∀ s ∈ steps.take n, 0 ≤ s.1 ∧ s.1 < 1 :=
        fun s hs => hsteps s (List.take_subset n steps hs)
      have hinv := apply_partial_exits_invariant pmcfg.instrument_lot_size hlot
        (steps.take n) htk p hrem
      refine ⟨?_, hinv.2.2.2, ?_⟩
      · rw [hinv.2.2.1, hinv.1, hpquant, hremeq, zero_add]
      · rw [hinv.2.1, hstat]
        simp
    · unfold exit_position
      rw [if_neg (by simp)]
    · unfold exit_position
      rw [if_neg (by simp)]

/-- Witness for C2 (amended): the fixture position (quantity 1050, lot
75), one 50% partial exit at premium 40, then a full exit at 50. -/
theorem position_quantity_conservation_witness :
    (enter_position pmcfgW rcfgW todayW pm0 rm0 sigW 80).1 = some posEnteredW ∧
    (0 : ℤ) < 75 ∧
    (∀ s ∈ [((1 : ℚ)/2, (40 : ℚ))], 0 ≤ s.1 ∧ s.1 < 1) ∧
    ((posEnteredW.partial_exit_quantity = 0 ∧
      posEnteredW.remaining_quantity = posEnteredW.quantity ∧
      0 < posEnteredW.remaining_quantity ∧ posEnteredW.status = .pending) ∧
     (∀ n,
       (apply_partial_exits (75 : ℤ) (([((1 : ℚ)/2, (40 : ℚ))]).take n) posEnteredW).partial_exit_quantity
         + (apply_partial_exits (75 : ℤ) (([((1 : ℚ)/2, (40 : ℚ))]).take n) posEnteredW).remaining_quantity
         = (apply_partial_exits (75 : ℤ) (([((1 : ℚ)/2, (40 : ℚ))]).take n) posEnteredW).quantity ∧
       0 < (apply_partial_exits (75 : ℤ) (([((1 : ℚ)/2, (40 : ℚ))]).take n) posEnteredW).remaining_quantity ∧
       (apply_partial_exits (75 : ℤ) (([((1 : ℚ)/2, (40 : ℚ))]).take n) posEnteredW).status ≠ .closed) ∧
     ((exit_position (75 : ℤ)
         (apply_partial_exits (75 : ℤ) [((1 : ℚ)/2, (40 : ℚ))] posEnteredW)
         { action := .EXIT_ALL, percentage := 1/2 } 50).2.remaining_quantity = 0 ∧
      (exit_position (75 : ℤ)
         (apply_partial_exits (75 : ℤ) [((1 : ℚ)/2, (40 : ℚ))] posEnteredW)
         { action := .EXIT_ALL, percentage := 1/2 } 50).2.status = .closed)) := by
  refine ⟨enter_position_fixture, by norm_num, by norm_num, ?_⟩
  exact position_quantity_conservation pmcfgW rcfgW todayW pm0 rm0 sigW 80
    posEnteredW enter_position_fixture (by norm_num [pmcfgW])
    [((1 : ℚ)/2, (40 : ℚ))] (by norm_num) (1/2) 50

/-- The lazy loss-counter reset never touches the active-position list. -/
lemma update_loss_counters_active (today : ℤ) (rm : RMState) :
    (update_loss_counters today rm).active_positions = rm.active_positions := by
  unfold update_loss_counters
  dsimp only
  split <;> split <;> rfl

/-- C8: with the active-position count at or above `max_positions` and the
(post-reset) loss counters below their limits, `validate_entry` returns
false with the position-count reason for any proposed position —
regardless of its confidence or the available capital — and
`enter_position` then returns none, leaving the position map and the
risk manager's active-position list unchanged. -/
theorem risk_gate_max_positions
    (rcfg : RiskConfig) (pmcfg : PMConfig) (today : Today) (pm : PMState)
    (rm : RMState) (sig : SignalData) (conf : ℚ) (p : Position)
    (hcount : rcfg.max_positions ≤ rm.active_positions.length)
    (hdaily : (update_loss_counters today.day_index rm).daily_loss < rcfg.max_daily_loss)
    (hweekly : (update_loss_counters today.day_index rm).weekly_loss < rcfg.max_weekly_loss) :
    (validate_entry rcfg today rm p).1 =
      (false, .maxPositionsReached rm.active_positions.length rcfg.max_positions) ∧
    (enter_position pmcfg rcfg today pm rm sig conf).1 = none ∧
    (enter_position pmcfg rcfg today pm rm sig conf).2.1.positions = pm.positions ∧
    (enter_position pmcfg rcfg today pm rm sig conf).2.2.active_positions
      = rm.active_positions := by
  have hact := update_loss_counters_active today.day_index rm
  have hval : ∀ q : Position, (validate_entry rcfg today rm q).1 =
      (false, .maxPositionsReached rm.active_positions.length rcfg.max_positions) := by
    intro q
    unfold validate_entry
    dsimp only
    rw [hact, if_neg (not_le.mpr hdaily), if_neg (not_le.mpr hweekly), if_pos hcount]
  have henter : enter_position pmcfg rcfg today pm rm sig conf =
      (none,
       { positions := pm.positions, position_counter := pm.position_counter + 1 },
       update_loss_counters today.day_index rm) := by
    unfold enter_position
    dsimp only
    rw [hval]
    rfl
  refine ⟨hval p, ?_, ?_, ?_⟩
  · rw [henter]
  · rw [henter]
  · rw [henter]
    exact hact

/-- Witness for C8: with `max_positions = 2` and two active positions,
the third entry attempt is refused with the position-count reason and
changes neither the position map nor the active list. -/
theorem risk_gate_max_positions_witness :
    ((2 : ℕ) ≤ rmFull.active_positions.length ∧
     (update_loss_counters todayW.day_index rmFull).daily_loss < rcfgW.max_daily_loss ∧
     (update_loss_counters todayW.day_index rmFull).weekly_loss < rcfgW.max_weekly_loss) ∧
    ((validate_entry rcfgW todayW rmFull posE).1 =
      (false, .maxPositionsReached rmFull.active_positions.length rcfgW.max_positions) ∧
    (enter_position pmcfgW rcfgW todayW pm0 rmFull sigW 80).1 = none ∧
    (enter_position pmcfgW rcfgW todayW pm0 rmFull sigW 80).2.1.positions = pm0.positions ∧
    (enter_position pmcfgW rcfgW todayW pm0 rmFull sigW 80).2.2.active_positions
      = rmFull.active_positions) := by
  have h1 : (2 : ℕ) ≤ rmFull.active_positions.length := by
    norm_num [rmFull]
  have h2 : (update_loss_counters todayW.day_index rmFull).daily_loss
      < rcfgW.max_daily_loss := by
    norm_num [update_loss_counters, rmFull, todayW, rcfgW, get_week_start, weekday]
  have h3 : (update_loss_counters todayW.day_index rmFull).weekly_loss
      < rcfgW.max_weekly_loss := by
    norm_num [update_loss_counters, rmFull, todayW, rcfgW, get_week_start, weekday]
  exact ⟨⟨h1, h2, h3⟩,
    risk_gate_max_positions rcfgW pmcfgW todayW pm0 rmFull sigW 80 posE
      (by norm_num [rcfgW] at h1 ⊢; exact h1) h2 h3⟩

/-- The update `record_position_exit` preserves the period anchors and never lowers a
loss counter. -/
lemma record_position_exit_fields (rm : RMState) (p : Position) (pnl : ℚ) :
    (record_position_exit rm p pnl).current_day = rm.current_day ∧
    (record_position_exit rm p pnl).week_start = rm.week_start ∧
    rm.daily_loss ≤ (record_position_exit rm p pnl).daily_loss ∧
    rm.weekly_loss ≤ (record_position_exit rm p pnl).weekly_loss := by
  unfold record_position_exit
  dsimp only
  split
  · exact ⟨rfl, rfl, by dsimp only; linarith [abs_nonneg pnl],
      by dsimp only; linarith [abs_nonneg pnl]⟩
  · exact ⟨rfl, rfl, le_refl _, le_refl _⟩

/-- A lazy reset on the stored day leaves the daily counter and the stored
day unchanged. -/
lemma update_loss_counters_same_day (rm : RMState) (d : ℤ)
    (h : d = rm.current_day) :
    (update_loss_counters d rm).daily_loss = rm.daily_loss ∧
    (update_loss_counters d rm).current_day = rm.current_day := by
  have hd : ¬(d ≠ rm.current_day) := by simp [h]
  by_cases hw : get_week_start d ≠ rm.week_start <;>
    simp [update_loss_counters, hd, hw]

/-- A lazy reset within the stored week leaves the weekly counter and the
stored week start unchanged. -/
lemma update_loss_counters_same_week (rm : RMState) (d : ℤ)
    (h : get_week_start d = rm.week_start) :
    (update_loss_counters d rm).weekly_loss = rm.weekly_loss ∧
    (update_loss_counters d rm).week_start = rm.week_start := by
  have hw : ¬(get_week_start d ≠ rm.week_start) := by simp [h]
  by_cases hd : d ≠ rm.current_day <;>
    simp [update_loss_counters, hd, hw]

/-- Within a fixed day, any sequence of exits and lazy resets keeps the
daily counter non-decreasing and the stored day fixed. -/
lemma apply_risk_ops_daily (ops : List RiskOp) (rm : RMState)
    (hops : ∀ d, RiskOp.lazyReset d ∈ ops → d = rm.current_day) :
    rm.daily_loss ≤ (apply_risk_ops ops rm).daily_loss ∧
    (apply_risk_ops ops rm).current_day = rm.current_day := by
  induction ops generalizing rm with
  | nil => exact ⟨le_refl _, rfl⟩
  | cons op rest ih =>
    have hfold : apply_risk_ops (op :: rest) rm =
        apply_risk_ops rest (apply_risk_op rm op) := by
      unfold apply_risk_ops
      rw [List.foldl_cons]
    rcases op with ⟨p, pnl⟩ | d
    · have hstep := record_position_exit_fields rm p pnl
      have hrest := ih (record_position_exit rm p pnl)
        (fun d hd => (hops d (List.mem_cons_of_mem _ hd)).trans hstep.1.symm)
      rw [hfold]
      exact ⟨le_trans hstep.2.2.1 hrest.1, hrest.2.trans hstep.1⟩
    · have hd : d = rm.current_day := hops d (List.mem_cons_self _ _)
      have hstep := update_loss_counters_same_day rm d hd
      have hrest := ih (update_loss_counters d rm)
        (fun e he => (hops e (List.mem_cons_of_mem _ he)).trans hstep.2.symm)
      rw [hfold]
      exact ⟨hstep.1 ▸ hrest.1, hrest.2.trans hstep.2⟩

/-- Within a fixed week, any sequence of exits and lazy resets keeps the
weekly counter non-decreasing and the stored week start fixed. -/
lemma apply_risk_ops_weekly (ops : List RiskOp) (rm : RMState)
    (hops : ∀ d, RiskOp.lazyReset d ∈ ops → get_week_start d = rm.week_start) :
    rm.weekly_loss ≤ (apply_risk_ops ops rm).weekly_loss ∧
    (apply_risk_ops ops rm).week_start = rm.week_start := by
  induction ops generalizing rm with
  | nil => exact ⟨le_refl _, rfl⟩
  | cons op rest ih =>
    have hfold : apply_risk_ops (op :: rest) rm =
        apply_risk_ops rest (apply_risk_op rm op) := by
      unfold apply_risk_ops
      rw [List.foldl_cons]
    rcases op with ⟨p, pnl⟩ | d
    · have hstep := record_position_exit_fields rm p pnl
      have hrest := ih (record_position_exit rm p pnl)
        (fun d hd => (hops d (List.mem_cons_of_mem _ hd)).trans hstep.2.1.symm)
      rw [hfold]
      exact ⟨le_trans hstep.2.2.2 hrest.1, hrest.2.trans hstep.2.1⟩
    · have hd : get_week_start d = rm.week_start := hops d (List.mem_cons_self _ _)
      have hstep := update_loss_counters_same_week rm d hd
      have hrest := ih (update_loss_counters d rm)
        (fun e he => (hops e (List.mem_cons_of_mem _ he)).trans hstep.2.symm)
      rw [hfold]
      exact ⟨hstep.1 ▸ hrest.1, hrest.2.trans hstep.2⟩

/-- C9: the daily (resp. weekly) loss counter never decreases across any
sequence of risk-manager calls whose lazy resets all run on the stored
day (resp. within the stored Monday-anchored week);
`record_position_exit` adds |pnl| to both counters exactly when the
realized pnl is negative and leaves both unchanged on profit; and the
lazy reset zeroes a counter exactly when the stored day (resp. week
start) differs from the current one. -/
theorem loss_counters_monotone (rm : RMState) (ops : List RiskOp) :
    ((∀ d, RiskOp.lazyReset d ∈ ops → d = rm.current_day) →
       rm.daily_loss ≤ (apply_risk_ops ops rm).daily_loss) ∧
    ((∀ d, RiskOp.lazyReset d ∈ ops → get_week_start d = rm.week_start) →
       rm.weekly_loss ≤ (apply_risk_ops ops rm).weekly_loss) ∧
    (∀ p pnl, pnl < 0 →
       (record_position_exit rm p pnl).daily_loss = rm.daily_loss + |pnl| ∧
       (record_position_exit rm p pnl).weekly_loss = rm.weekly_loss + |pnl|) ∧
    (∀ p pnl, 0 ≤ pnl →
       (record_position_exit rm p pnl).daily_loss = rm.daily_loss ∧
       (record_position_exit rm p pnl).weekly_loss = rm.weekly_loss) ∧
    (∀ d, d ≠ rm.current_day → (update_loss_counters d rm).daily_loss = 0) ∧
    (∀ d, get_week_start d ≠ rm.week_start →
       (update_loss_counters d rm).weekly_loss = 0) := by
  refine ⟨fun hops => (apply_risk_ops_daily ops rm hops).1,
         fun hops => (apply_risk_ops_weekly ops rm hops).1,
         ?_, ?_, ?_, ?_⟩
  · intro p pnl h
    unfold record_position_exit
    dsimp only
    rw [if_pos h]
    exact ⟨rfl, rfl⟩
  · intro p pnl h
    unfold record_position_exit
    dsimp only
    rw [if_neg (not_lt.mpr h)]
    exact ⟨rfl, rfl⟩
  · intro d h
    by_cases hw : get_week_start d ≠ rm.week_start <;>
      simp [update_loss_counters, h, hw]
  · intro d h
    by_cases hd : d ≠ rm.current_day <;>
      simp [update_loss_counters, h, hd]

/-- Witness for C9: on the fixture risk state (day 5, week start 0,
losses 100/200), the same-day op sequence — losing exit, lazy reset,
winning exit — never lowers either counter. -/
theorem loss_counters_monotone_witness :
    rmLoss.daily_loss ≤ (apply_risk_ops opsW rmLoss).daily_loss ∧
    rmLoss.weekly_loss ≤ (apply_risk_ops opsW rmLoss).weekly_loss := by
  have hd : ∀ d, RiskOp.lazyReset d ∈ opsW → d = rmLoss.current_day := by
    intro d hd
    simp [opsW] at hd
    simp [hd, rmLoss]
  have hw : ∀ d, RiskOp.lazyReset d ∈ opsW → get_week_start d = rmLoss.week_start := by
    intro d hd
    simp [opsW] at hd
    subst hd
    decide
  exact ⟨(loss_counters_monotone rmLoss opsW).1 hd,
         (loss_counters_monotone rmLoss opsW).2.1 hw⟩

end MCH
